import Mathlib

/-!
Verification development for a DDoS-protection service (single-file
FastAPI + Redis application, `main.py`).

The embedding models:
* the Redis state visible to the application: a set of TimeSeries keys with
  their samples, and a key-value space with per-key TTLs (an entry being
  present models a live, unexpired key; values are either strings or redis
  integers, mirroring how redis stores `SET` values vs `INCR` counters);
* `detect_anomalies` (window statistics and z-score policy, including the
  `except ResponseError` handling: a missing key degrades, a connection
  failure propagates);
* `check_rate_limit`, `verify_client`, the `/api/anomalies` sweep
  (`get_anomalies`) and `/api/mitigate` (`add_mitigation`).

External HTTP collaborators (threat intelligence, Cloudflare) are modelled
as oracles passed in as functions; the calls actually issued are recorded
in an `Effects` record. Float arithmetic is idealised over `ℝ`.
-/

namespace DDoS

/-! ### Configuration constants (module-level constants in `main.py`) -/

def WINDOW_SIZE : ℤ := 60

noncomputable def ZSCORE_THRESHOLD : ℝ := 3.0

def MIN_DATA_POINTS : ℕ := 30

def RATE_LIMIT_WINDOW : ℕ := 60

def RATE_LIMIT_MAX_REQUESTS : ℕ := 1000

/-! ### Redis state -/

/-- A value held at a redis key: either a string (written by `SET`) or a
redis integer (written by `INCR`, which parses and re-encodes the counter
server-side). -/
inductive KVVal where
  | vstr (v : String)
  | vnum (n : ℕ)
deriving DecidableEq

/-- The redis state as seen by the application: whether the server is
reachable, the existing TimeSeries keys with their (timestamp, value)
samples, and the live key-value entries, each with the TTL (seconds) it was
last given. An expired key is simply absent. -/
structure Store where
  reachable : Bool
  tsKeys : List String
  tsData : String → List (ℤ × ℝ)
  kv : String → Option (KVVal × ℕ)

/-- The redis primitive `SET key value EX ttl`. -/
def kvSet (s : Store) (key : String) (v : KVVal) (ttl : ℕ) : Store :=
  { s with kv := fun k => if k = key then some (v, ttl) else s.kv k }

/-- Decimal value of a character string, accumulator style; the embedding of
Python's `int(...)` on the digit strings redis hands back. -/
def decValAux (acc : ℕ) : List Char → ℕ
  | [] => acc
  | c :: cs => decValAux (acc * 10 + (c.toNat - 48)) cs

/-- Python `int(count) if count else 0` applied to a redis `GET` result:
a missing key or an empty string reads as 0, a redis integer as itself. -/
def kvCount (s : Store) (key : String) : ℕ :=
  match s.kv key with
  | none => 0
  | some (.vnum n, _) => n
  | some (.vstr v, _) => if v = "" then 0 else decValAux 0 v.data

/-- Python truthiness of a redis `GET` result (`if is_verified:`): `None`
and the empty string are falsy, everything else is truthy (a redis integer
reads back as a non-empty decimal string). -/
def kvTruthy (o : Option (KVVal × ℕ)) : Bool :=
  match o with
  | none => false
  | some (.vstr v, _) => !(v == "")
  | some (.vnum _, _) => true

/-- The redis primitive `INCR key` (parses the stored value as an integer and adds 1; creates
the key at 1 when absent), keeping the key's TTL slot. -/
def kvIncr (s : Store) (key : String) : Store :=
  { s with kv := fun k =>
      if k = key then
        match s.kv key with
        | none => some (.vnum 1, 0)
        | some (v, ttl) =>
          match v with
          | .vnum n => some (.vnum (n + 1), ttl)
          | .vstr w => some (.vnum ((if w = "" then 0 else decValAux 0 w.data) + 1), ttl)
      else s.kv k }

/-- The redis primitive `EXPIRE key ttl`: reset the TTL of a live key. -/
def kvExpire (s : Store) (key : String) (ttl : ℕ) : Store :=
  { s with kv := fun k =>
      if k = key then
        match s.kv key with
        | none => none
        | some (v, _) => some (v, ttl)
      else s.kv k }

/-! ### TimeSeries adapter -/

/-- How a TimeSeries read can fail: `responseError` is redis answering with
an error (the key does not exist — the class `except ResponseError`
catches), `connectionError` is the server being unreachable (a distinct
exception class in `redis-py`, not caught by `except ResponseError`). -/
inductive TSErr where
  | responseError
  | connectionError
deriving DecidableEq

/-- The redis primitive `TS.RANGE key from to`: all samples with timestamp in `[fromT, toT]`,
in stored order. -/
def tsRange (s : Store) (key : String) (fromT toT : ℤ) :
    Except TSErr (List (ℤ × ℝ)) :=
  if s.reachable = false then .error .connectionError
  else if key ∈ s.tsKeys then
    .ok ((s.tsData key).filter fun p => decide (fromT ≤ p.1 ∧ p.1 ≤ toT))
  else .error .responseError

/-- The redis primitive `TS.ADD key t v`: append a sample (creating the series if absent). -/
def tsAdd (s : Store) (key : String) (t : ℤ) (v : ℝ) : Store :=
  { s with
    tsKeys := if key ∈ s.tsKeys then s.tsKeys else key :: s.tsKeys
    tsData := fun k => if k = key then s.tsData key ++ [(t, v)] else s.tsData k }

/-- The trailing window `[now − WINDOW_SIZE·1000, now]` of a metric's
samples, as `detect_anomalies` fetches it. -/
def windowData (s : Store) (now : ℤ) (metric : String) : List (ℤ × ℝ) :=
  (s.tsData metric).filter fun p =>
    decide (now - WINDOW_SIZE * 1000 ≤ p.1 ∧ p.1 ≤ now)

/-! ### Anomaly detection (`detect_anomalies`) -/

structure AnomalyDetectionResult where
  timestamp : ℝ
  metric : String
  value : ℝ
  zscore : ℝ
  is_anomaly : Bool
  threshold : ℝ

/-- The function `detect_anomalies(redis_client, metric)`. `Except.error ()` models an
exception escaping the function (only the uncaught connection failure);
`.ok (none, s)` is the `return None` paths (missing key, too few points);
`.ok (some r, s')` is a computed result together with the store after the
unconditional writes to `{metric}:avg` and `{metric}:std`. -/
noncomputable def detect_anomalies (s : Store) (now : ℤ) (metric : String) :
    Except Unit (Option AnomalyDetectionResult × Store) :=
  match tsRange s metric (now - WINDOW_SIZE * 1000) now with
  | .error .connectionError => .error ()
  | .error .responseError => .ok (none, s)
  | .ok data =>
    if data.length < MIN_DATA_POINTS then .ok (none, s)
    else
      let current_value : ℝ := ((data.getLast?).getD (0, 0)).2
      let values : List ℝ := data.map Prod.snd
      let avg : ℝ := values.sum / (values.length : ℝ)
      let std_dev : ℝ :=
        Real.sqrt (((values.map fun x => (x - avg) ^ 2).sum) / (values.length : ℝ))
      let zscore : ℝ := if std_dev = 0 then 0 else (current_value - avg) / std_dev
      let is_anomaly : Bool := decide (ZSCORE_THRESHOLD < |zscore|)
      .ok (some { timestamp := (now : ℝ) / 1000
                  metric := metric
                  value := current_value
                  zscore := zscore
                  is_anomaly := is_anomaly
                  threshold := ZSCORE_THRESHOLD },
           tsAdd (tsAdd s (metric ++ ":avg") now avg) (metric ++ ":std") now std_dev)

/-! ### Rate limiter (`check_rate_limit`) -/

/-- The function `check_rate_limit(redis_client, ip)`: read the counter; if at the cap
return `(True, count)` without touching the store, else `INCR` + `EXPIRE`
and return `(False, count + 1)`. -/
def check_rate_limit (s : Store) (ip : String) : (Bool × ℕ) × Store :=
  if RATE_LIMIT_MAX_REQUESTS ≤ kvCount s ("ratelimit:" ++ ip) then
    ((true, kvCount s ("ratelimit:" ++ ip)), s)
  else
    ((false, kvCount s ("ratelimit:" ++ ip) + 1),
     kvExpire (kvIncr s ("ratelimit:" ++ ip)) ("ratelimit:" ++ ip) RATE_LIMIT_WINDOW)

/-! ### Verification decision (`verify_client`) -/

structure ThreatIntelResult where
  ip : String
  risk_score : ℚ
  categories : List String
  is_proxy : Bool
  is_tor : Bool
  is_vpn : Bool
  country_code : String
  asn : ℤ
  asn_name : String

structure VerifyResult where
  verified : Bool
  verification_type : String
deriving DecidableEq

/-- The outbound HTTP calls a handler performed, in the order issued:
threat-intelligence lookups, Cloudflare block-rule creations, Cloudflare
challenge-rule creations. -/
structure Effects where
  tiQueries : List String
  cfBlocks : List String
  cfChallenges : List String
deriving DecidableEq

/-- The graduated-friction tail of `verify_client`: CAPTCHA above 100
requests, JavaScript challenge above 50, otherwise mark the client verified
with a cookie. `check_rate_limit` is pure, so reusing it here denotes the
single call the source makes. -/
def verify_graduated (s : Store) (ip : String) : VerifyResult × Store × Effects :=
  if 100 < (check_rate_limit s ip).1.2 then
    (⟨false, "captcha_required"⟩, (check_rate_limit s ip).2, ⟨[ip], [], []⟩)
  else if 50 < (check_rate_limit s ip).1.2 then
    (⟨false, "js_challenge"⟩, (check_rate_limit s ip).2, ⟨[ip], [], []⟩)
  else
    (⟨true, "cookie"⟩,
     kvSet (check_rate_limit s ip).2 ("verified:" ++ ip) (.vstr "cookie") 3600,
     ⟨[ip], [], []⟩)

/-- The handler `verify_client(request, redis_client)`. `ti` is the threat-intelligence
collaborator (`none` covers timeout / non-200 / transport failure, all of
which `check_threat_intel` turns into `None`). -/
def verify_client (s : Store) (ti : String → Option ThreatIntelResult)
    (ip : String) : VerifyResult × Store × Effects :=
  if kvTruthy (s.kv ("verified:" ++ ip)) then
    (⟨true, "cached"⟩, s, ⟨[], [], []⟩)
  else if (check_rate_limit s ip).1.1 then
    (⟨false, "rate_limited"⟩, (check_rate_limit s ip).2, ⟨[], [], []⟩)
  else
    match ti ip with
    | some t =>
      if (70 : ℚ) < t.risk_score then
        (⟨false, "threat_intel_blocked"⟩,
         kvSet (check_rate_limit s ip).2 ("blocked:" ++ ip) (.vstr "threat_intel") 3600,
         ⟨[ip], [ip], []⟩)
      else verify_graduated s ip
    | none => verify_graduated s ip

/-! ### Anomaly sweep (`get_anomalies`) -/

/-- Character-list test: does `l` start with `p`? -/
def listPre : List Char → List Char → Bool
  | [], _ => true
  | _ :: _, [] => false
  | a :: as, b :: bs => a == b && listPre as bs

/-- Does `l` contain `sub` as a contiguous segment? -/
def listSub (sub : List Char) : List Char → Bool
  | [] => listPre sub []
  | a :: rest => listPre sub (a :: rest) || listSub sub rest

/-- String pattern test for `SCAN match "pre*"`. -/
def strPre (pre s : String) : Bool := listPre pre.data s.data

/-- Python `sub in key` (substring containment). -/
def containsSub (key sub : String) : Bool := listSub sub.data key.data

/-- The keys one sweep loop visits: `SCAN match "pre*"` filtered by the
in-loop guard `":avg" not in key and ":std" not in key`. -/
def scanKeys (s : Store) (pre : String) : List String :=
  s.tsKeys.filter fun k =>
    strPre pre k && !containsSub k ":avg" && !containsSub k ":std"

/-- Python `key.split(":")[-1]`. -/
def extractIp (key : String) : String := ((key.splitOn ":").getLast?).getD ""

/-- One evaluate-and-collect loop of the sweep: evaluate every key in order,
threading the store, collecting the anomalous results and their
`(f key, value)` pairs (`f` is the identity for the path loop and
`extractIp` for the IP loop); an exception escaping `detect_anomalies`
escapes the loop (nothing in the source catches it). The source's three
inline global-metric evaluations are this same loop unrolled over the three
fixed keys. -/
noncomputable def sweepLoop (f : String → String) (now : ℤ) :
    List String → Store →
    Except Unit (List AnomalyDetectionResult × List (String × ℝ) × Store)
  | [], s => .ok ([], [], s)
  | k :: ks, s =>
    match detect_anomalies s now k with
    | .error e => .error e
    | .ok (o, s₁) =>
      match sweepLoop f now ks s₁ with
      | .error e => .error e
      | .ok (as, ps, s₂) =>
        match o with
        | some r =>
          if r.is_anomaly then .ok (r :: as, (f k, r.value) :: ps, s₂)
          else .ok (as, ps, s₂)
        | none => .ok (as, ps, s₂)

/-- The handler `get_anomalies(redis_client)` (`GET /api/anomalies`): evaluate the three
global metrics, sweep the per-path and per-IP keys, then auto-block every
IP-scoped anomaly whose observed value exceeds 100 (Cloudflare call plus a
`blocked` registry entry with reason `auto_anomaly` and TTL 3600), and
return all collected anomalies. -/
noncomputable def get_anomalies (s : Store) (now : ℤ) :
    Except Unit (List AnomalyDetectionResult × Store × Effects) :=
  match sweepLoop (fun k => k) now
      ["ddos:total_rps", "ddos:response_time", "ddos:error_rate"] s with
  | .error e => .error e
  | .ok (globalAnoms, _gPairs, s3) =>
    match sweepLoop (fun k => k) now (scanKeys s3 "ddos:path:") s3 with
    | .error e => .error e
    | .ok (pathAnoms, _topPaths, s4) =>
      match sweepLoop extractIp now (scanKeys s4 "ddos:ip:") s4 with
      | .error e => .error e
      | .ok (ipAnoms, topIps, s5) =>
        .ok (globalAnoms ++ pathAnoms ++ ipAnoms,
             (topIps.filter fun p => decide ((100 : ℝ) < p.2)).foldl
               (fun st p => kvSet st ("blocked:" ++ p.1) (.vstr "auto_anomaly") 3600) s5,
             ⟨[], (topIps.filter fun p => decide ((100 : ℝ) < p.2)).map Prod.fst, []⟩)

/-! ### Manual mitigation (`add_mitigation`) -/

structure MitigationAction where
  action_type : String
  target : String
  duration : ℕ
  reason : String

/-- The handler `add_mitigation(action, redis_client)` (`POST /api/mitigate`). `cfBlock`
and `cfChallenge` are the Cloudflare collaborator outcomes (`false` covers
non-2xx responses and transport failures alike, which the source maps to
`success=False`). -/
def add_mitigation (s : Store) (cfBlock cfChallenge : String → Bool)
    (a : MitigationAction) : Bool × Store × Effects :=
  if a.action_type = "block" then
    let success := cfBlock a.target
    (success,
     (if success then kvSet s ("blocked:" ++ a.target) (.vstr a.reason) a.duration else s),
     ⟨[], [a.target], []⟩)
  else if a.action_type = "challenge" then
    let success := cfChallenge a.target
    (success,
     (if success then kvSet s ("challenged:" ++ a.target) (.vstr a.reason) a.duration else s),
     ⟨[], [], [a.target]⟩)
  else
    (true, kvSet s ("monitored:" ++ a.target) (.vstr a.reason) a.duration, ⟨[], [], []⟩)

/-! ### Window statistics, named for the specification -/

/-- The window's values in sample order. -/
def wValues (s : Store) (now : ℤ) (metric : String) : List ℝ :=
  (windowData s now metric).map Prod.snd

/-- Arithmetic average of the window's values. -/
noncomputable def wMean (s : Store) (now : ℤ) (metric : String) : ℝ :=
  (wValues s now metric).sum / ((wValues s now metric).length : ℝ)

/-- Population variance (divide by N). -/
noncomputable def wVar (s : Store) (now : ℤ) (metric : String) : ℝ :=
  (((wValues s now metric).map fun x => (x - wMean s now metric) ^ 2).sum) /
    ((wValues s now metric).length : ℝ)

/-- Population standard deviation. -/
noncomputable def wStd (s : Store) (now : ℤ) (metric : String) : ℝ :=
  Real.sqrt (wVar s now metric)

/-- The observed value: the window's last sample. -/
noncomputable def wCur (s : Store) (now : ℤ) (metric : String) : ℝ :=
  (((windowData s now metric).getLast?).getD (0, 0)).2

/-- The z-score, 0 on a flat window. -/
noncomputable def wZ (s : Store) (now : ℤ) (metric : String) : ℝ :=
  if wStd s now metric = 0 then 0
  else (wCur s now metric - wMean s now metric) / wStd s now metric


/-! ### Helper lemmas -/

theorem tsRange_window (s : Store) (now : ℤ) (metric : String)
    (hre : s.reachable = true) (hmem : metric ∈ s.tsKeys) :
    tsRange s metric (now - WINDOW_SIZE * 1000) now = .ok (windowData s now metric) := by
  simp [tsRange, hre, hmem, windowData]

theorem detect_anomalies_eq (s : Store) (now : ℤ) (metric : String)
    (hre : s.reachable = true) (hmem : metric ∈ s.tsKeys)
    (hlen : MIN_DATA_POINTS ≤ (windowData s now metric).length) :
    detect_anomalies s now metric =
      .ok (some { timestamp := (now : ℝ) / 1000
                  metric := metric
                  value := wCur s now metric
                  zscore := wZ s now metric
                  is_anomaly := decide (ZSCORE_THRESHOLD < |wZ s now metric|)
                  threshold := ZSCORE_THRESHOLD },
           tsAdd (tsAdd s (metric ++ ":avg") now (wMean s now metric))
                 (metric ++ ":std") now (wStd s now metric)) := by
  unfold detect_anomalies
  rw [tsRange_window s now metric hre hmem]
  show (if (windowData s now metric).length < MIN_DATA_POINTS then _ else _) = _
  rw [if_neg (by omega)]
  rfl

theorem detect_anomalies_frame {s : Store} {now : ℤ} {metric : String}
    {o : Option AnomalyDetectionResult} {s' : Store}
    (h : detect_anomalies s now metric = .ok (o, s')) :
    s'.kv = s.kv ∧ s'.reachable = s.reachable ∧
      (∀ r, o = some r → r.metric = metric) := by
  unfold detect_anomalies at h
  split at h
  · exact absurd h (by simp)
  · obtain ⟨rfl, rfl⟩ : none = o ∧ s = s' := by simpa using h
    exact ⟨rfl, rfl, by simp⟩
  · split at h
    · obtain ⟨rfl, rfl⟩ : none = o ∧ s = s' := by simpa using h
      exact ⟨rfl, rfl, by simp⟩
    · obtain ⟨rfl, rfl⟩ :
          some _ = o ∧ tsAdd (tsAdd s (metric ++ ":avg") now _) (metric ++ ":std") now _ = s' := by
        simpa using h
      refine ⟨rfl, rfl, ?_⟩
      rintro r ⟨rfl⟩
      rfl

theorem detect_anomalies_ok (s : Store) (now : ℤ) (metric : String)
    (hre : s.reachable = true) :
    ∃ o s', detect_anomalies s now metric = .ok (o, s') := by
  cases hd : detect_anomalies s now metric with
  | ok v => exact ⟨v.1, v.2, rfl⟩
  | error e =>
    exfalso
    unfold detect_anomalies at hd
    split at hd
    · rename_i heq
      unfold tsRange at heq
      simp [hre] at heq
      split at heq <;> simp_all
    · simp at hd
    · split at hd <;> simp at hd


theorem ZSCORE_THRESHOLD_eq : ZSCORE_THRESHOLD = 3 := by
  norm_num [ZSCORE_THRESHOLD]

theorem tsAdd_data_self (s : Store) (key : String) (t : ℤ) (v : ℝ) :
    (tsAdd s key t v).tsData key = s.tsData key ++ [(t, v)] := by
  simp [tsAdd]

theorem tsAdd_data_ne (s : Store) (key : String) (t : ℤ) (v : ℝ) (k : String)
    (h : k ≠ key) : (tsAdd s key t v).tsData k = s.tsData k := by
  simp [tsAdd, h]

theorem append_avg_ne_std (metric : String) : metric ++ ":avg" ≠ metric ++ ":std" := by
  intro h
  have h2 := congrArg String.data h
  simp [String.data_append] at h2

theorem ne_append_avg (metric : String) : metric ≠ metric ++ ":avg" := by
  intro h
  have h2 := congrArg String.length h
  rw [String.length_append] at h2
  have h4 : (":avg" : String).length = 4 := rfl
  omega

theorem ne_append_std (metric : String) : metric ≠ metric ++ ":std" := by
  intro h
  have h2 := congrArg String.length h
  rw [String.length_append] at h2
  have h4 : (":std" : String).length = 4 := rfl
  omega

theorem pairwise_fst_le_getLast :
    ∀ (l : List (ℤ × ℝ)), (l.Pairwise fun p q => p.1 ≤ q.1) → ∀ (hne : l ≠ []),
      ∀ p ∈ l, p.1 ≤ (l.getLast hne).1 := by
  intro l
  induction l with
  | nil => intro _ hne; exact absurd rfl hne
  | cons a t ih =>
    intro h hne p hp
    rcases List.pairwise_cons.mp h with ⟨ha, ht⟩
    cases t with
    | nil =>
      rcases List.mem_cons.mp hp with rfl | hp
      · exact le_refl _
      · simp at hp
    | cons b t' =>
      rw [List.getLast_cons (List.cons_ne_nil b t')]
      rcases List.mem_cons.mp hp with rfl | hp
      · exact ha _ (List.getLast_mem (List.cons_ne_nil b t'))
      · exact ih ht (List.cons_ne_nil b t') p hp

theorem windowData_pairwise (s : Store) (now : ℤ) (metric : String)
    (h : (s.tsData metric).Pairwise fun p q => p.1 ≤ q.1) :
    (windowData s now metric).Pairwise fun p q => p.1 ≤ q.1 :=
  h.sublist (List.filter_sublist _)

theorem wValues_length (s : Store) (now : ℤ) (metric : String) :
    (wValues s now metric).length = (windowData s now metric).length := by
  simp [wValues]

theorem wVar_nonneg (s : Store) (now : ℤ) (metric : String) :
    0 ≤ wVar s now metric := by
  unfold wVar
  apply div_nonneg _ (Nat.cast_nonneg _)
  apply List.sum_nonneg
  intro x hx
  obtain ⟨y, -, rfl⟩ := List.mem_map.mp hx
  positivity

theorem wStd_nonneg (s : Store) (now : ℤ) (metric : String) :
    0 ≤ wStd s now metric := Real.sqrt_nonneg _

theorem wStd_sq (s : Store) (now : ℤ) (metric : String) :
    wStd s now metric ^ 2 = wVar s now metric :=
  Real.sq_sqrt (wVar_nonneg s now metric)

theorem not_anomalous_at_three_sigma (s : Store) (now : ℤ) (metric : String)
    (hc : wCur s now metric = wMean s now metric + 3 * wStd s now metric) :
    ¬ (ZSCORE_THRESHOLD < |wZ s now metric|) := by
  rw [ZSCORE_THRESHOLD_eq]
  unfold wZ
  by_cases h0 : wStd s now metric = 0
  · rw [if_pos h0]
    norm_num
  · rw [if_neg h0, hc]
    have h3 : (wMean s now metric + 3 * wStd s now metric - wMean s now metric) /
        wStd s now metric = 3 := by
      field_simp
    rw [h3]
    norm_num

theorem wStd_const (s : Store) (now : ℤ) (metric : String) (c : ℝ)
    (hpos : 0 < (wValues s now metric).length)
    (hall : ∀ x ∈ wValues s now metric, x = c) :
    wStd s now metric = 0 := by
  obtain ⟨n, hrep⟩ : ∃ n, wValues s now metric = List.replicate n c :=
    ⟨_, List.eq_replicate_iff.mpr ⟨rfl, hall⟩⟩
  have hn : 0 < n := by
    rw [hrep] at hpos; simpa using hpos
  have hn' : ((n : ℝ)) ≠ 0 := by positivity
  unfold wStd wVar wMean
  rw [hrep]
  have hc : (n : ℝ) * c / n = c := by field_simp
  simp only [List.sum_replicate, List.length_replicate, nsmul_eq_mul, hc,
    List.map_replicate, sub_self]
  norm_num


/-- C1: for a metric whose trailing 60-second window holds at least 30 samples
(`MIN_DATA_POINTS`), `detect_anomalies` computes the arithmetic mean of the
window's values (persisted on `{metric}:avg`), the population standard
deviation dividing by N (persisted on `{metric}:std`), takes the observed
value from the window's last sample by timestamp, sets the z-score to 0 when
the standard deviation is 0 and to (observed − mean)/stddev otherwise, and
flags an anomaly exactly when |z-score| > 3.0 — strictly, so an observed value
at exactly mean + 3.0·stddev is not anomalous, and a constant-valued window is
never anomalous regardless of magnitude. -/
theorem detect_anomalies_zscore_policy (s : Store) (now : ℤ) (metric : String)
    (hre : s.reachable = true) (hmem : metric ∈ s.tsKeys)
    (hsort : (s.tsData metric).Pairwise fun p q => p.1 ≤ q.1)
    (hlen : MIN_DATA_POINTS ≤ (windowData s now metric).length) :
    ∃ r s', detect_anomalies s now metric = .ok (some r, s') ∧
      (∃ hne : windowData s now metric ≠ [],
        r.value = ((windowData s now metric).getLast hne).2 ∧
        ∀ p ∈ windowData s now metric, p.1 ≤ ((windowData s now metric).getLast hne).1) ∧
      s'.tsData (metric ++ ":avg") =
        s.tsData (metric ++ ":avg") ++ [(now, wMean s now metric)] ∧
      wMean s now metric * ((wValues s now metric).length : ℝ) = (wValues s now metric).sum ∧
      s'.tsData (metric ++ ":std") =
        s.tsData (metric ++ ":std") ++ [(now, wStd s now metric)] ∧
      0 ≤ wStd s now metric ∧
      wStd s now metric ^ 2 * ((wValues s now metric).length : ℝ) =
        ((wValues s now metric).map fun x => (x - wMean s now metric) ^ 2).sum ∧
      r.zscore = (if wStd s now metric = 0 then 0
                  else (r.value - wMean s now metric) / wStd s now metric) ∧
      (r.is_anomaly = true ↔ (3 : ℝ) < |r.zscore|) ∧
      (r.value = wMean s now metric + 3 * wStd s now metric → r.is_anomaly = false) ∧
      (∀ c : ℝ, (∀ x ∈ wValues s now metric, x = c) → r.is_anomaly = false) := by
  have h30 : MIN_DATA_POINTS = 30 := rfl
  have hne : windowData s now metric ≠ [] := by
    have hp : 0 < (windowData s now metric).length := by omega
    exact List.ne_nil_of_length_pos hp
  have hNpos : 0 < (wValues s now metric).length := by
    rw [wValues_length]; omega
  have hN : ((wValues s now metric).length : ℝ) ≠ 0 := by positivity
  refine ⟨_, _, detect_anomalies_eq s now metric hre hmem hlen,
    ?_, ?_, ?_, ?_, ?_, ?_, ?_, ?_, ?_, ?_⟩
  · refine ⟨hne, ?_, ?_⟩
    · show wCur s now metric = _
      unfold wCur
      rw [List.getLast?_eq_getLast _ hne]
      rfl
    · exact pairwise_fst_le_getLast _ (windowData_pairwise s now metric hsort) hne
  · rw [tsAdd_data_ne _ _ _ _ _ (append_avg_ne_std metric)]
    exact tsAdd_data_self _ _ _ _
  · unfold wMean
    exact div_mul_cancel₀ _ hN
  · rw [tsAdd_data_self, tsAdd_data_ne _ _ _ _ _ (Ne.symm (append_avg_ne_std metric))]
  · exact wStd_nonneg s now metric
  · rw [wStd_sq]
    unfold wVar
    exact div_mul_cancel₀ _ hN
  · rfl
  · show (decide (ZSCORE_THRESHOLD < |wZ s now metric|) = true) ↔ _
    simp [decide_eq_true_eq, ZSCORE_THRESHOLD_eq]
  · intro hcv
    show decide (ZSCORE_THRESHOLD < |wZ s now metric|) = false
    exact decide_eq_false (not_anomalous_at_three_sigma s now metric hcv)
  · intro c hall
    show decide (ZSCORE_THRESHOLD < |wZ s now metric|) = false
    apply decide_eq_false
    have h0 := wStd_const s now metric c hNpos hall
    unfold wZ
    rw [if_pos h0, ZSCORE_THRESHOLD_eq]
    simp


/-! ### Concrete stores used to instantiate the theorems -/

/-- A reachable store holding one metric `m` with 30 constant samples. -/
noncomputable def demoStore : Store :=
  { reachable := true
    tsKeys := ["m"]
    tsData := fun k =>
      if k = "m" then (List.range 30).map (fun i : ℕ => ((i : ℤ), (5 : ℝ))) else []
    kv := fun _ => none }

theorem demo_data :
    demoStore.tsData "m" = (List.range 30).map (fun i : ℕ => ((i : ℤ), (5 : ℝ))) := rfl

theorem demo_window :
    windowData demoStore 30 "m" = (List.range 30).map (fun i : ℕ => ((i : ℤ), (5 : ℝ))) := by
  unfold windowData
  rw [demo_data]
  apply List.filter_eq_self.mpr
  intro p hp
  obtain ⟨i, hi, rfl⟩ := List.mem_map.mp hp
  have h30 : i < 30 := List.mem_range.mp hi
  simp only [decide_eq_true_eq, WINDOW_SIZE]
  omega

theorem demo_sorted : (demoStore.tsData "m").Pairwise fun p q => p.1 ≤ q.1 := by
  rw [demo_data]
  refine List.Pairwise.map _ (fun a b (h : a < b) => ?_) (List.pairwise_lt_range 30)
  have hc : (a : ℤ) ≤ (b : ℤ) := by exact_mod_cast Nat.le_of_lt h
  exact hc

theorem demo_window_len : MIN_DATA_POINTS ≤ (windowData demoStore 30 "m").length := by
  rw [demo_window]
  simp only [List.length_map, List.length_range]
  norm_num [MIN_DATA_POINTS]

/-- Witness for C1: on a store with a 30-sample constant window the theorem
applies, and the constant-window clause yields a non-anomalous result. -/
theorem detect_anomalies_zscore_policy_witness :
    ∃ r s', detect_anomalies demoStore 30 "m" = .ok (some r, s') ∧
      r.is_anomaly = false := by
  obtain ⟨r, s', hdet, -, -, -, -, -, -, -, -, -, hconst⟩ :=
    detect_anomalies_zscore_policy demoStore 30 "m" rfl (by simp [demoStore])
      demo_sorted demo_window_len
  refine ⟨r, s', hdet, hconst 5 ?_⟩
  intro x hx
  rw [wValues, demo_window] at hx
  simp only [List.map_map, List.mem_map] at hx
  obtain ⟨i, -, rfl⟩ := hx
  rfl

/-- C6: for a metric key that exists in the store but has fewer than
`MIN_DATA_POINTS = 30` samples in the trailing 60-second window,
`detect_anomalies` returns no result at all, and with 30 or more samples it
returns a computed result. -/
theorem detect_anomalies_min_points (s : Store) (now : ℤ) (metric : String)
    (hre : s.reachable = true) (hmem : metric ∈ s.tsKeys) :
    ((windowData s now metric).length < MIN_DATA_POINTS →
        detect_anomalies s now metric = .ok (none, s)) ∧
    (MIN_DATA_POINTS ≤ (windowData s now metric).length →
        ∃ r s', detect_anomalies s now metric = .ok (some r, s')) := by
  constructor
  · intro hlt
    unfold detect_anomalies
    rw [tsRange_window s now metric hre hmem]
    show (if (windowData s now metric).length < MIN_DATA_POINTS then _ else _) = _
    rw [if_pos hlt]
  · intro hlen
    exact ⟨_, _, detect_anomalies_eq s now metric hre hmem hlen⟩

/-- A reachable store holding one metric `m` with only 5 samples. -/
noncomputable def smallStore : Store :=
  { reachable := true
    tsKeys := ["m"]
    tsData := fun k =>
      if k = "m" then (List.range 5).map (fun i : ℕ => ((i : ℤ), (1 : ℝ))) else []
    kv := fun _ => none }

/-- Witness for C6: a 5-sample window yields an absent result. -/
theorem detect_anomalies_min_points_witness :
    detect_anomalies smallStore 30 "m" = .ok (none, smallStore) := by
  apply (detect_anomalies_min_points smallStore 30 "m" rfl (by simp [smallStore])).1
  have hle : (windowData smallStore 30 "m").length ≤ 5 := by
    have h := List.length_filter_le
      (fun p : ℤ × ℝ => decide (30 - WINDOW_SIZE * 1000 ≤ p.1 ∧ p.1 ≤ 30))
      (smallStore.tsData "m")
    have h5 : (smallStore.tsData "m").length = 5 := by
      have hd : smallStore.tsData "m" = (List.range 5).map (fun i : ℕ => ((i : ℤ), (1 : ℝ))) := rfl
      rw [hd]
      simp only [List.length_map, List.length_range]
    rw [windowData]
    omega
  have h30 : MIN_DATA_POINTS = 30 := rfl
  omega

/-- C7 (amended): a metric key that was never created degrades to an absent
result (redis answers with a `ResponseError`, which the function catches and
maps to `None`); a store that is unreachable, however, raises past
`detect_anomalies` (the connection failure is not a `ResponseError`) instead
of degrading. -/
theorem detect_anomalies_degradation (s : Store) (now : ℤ) (metric : String) :
    (s.reachable = true → metric ∉ s.tsKeys →
        detect_anomalies s now metric = .ok (none, s)) ∧
    (s.reachable = false → detect_anomalies s now metric = .error ()) := by
  constructor
  · intro hre hmem
    unfold detect_anomalies
    have ht : tsRange s metric (now - WINDOW_SIZE * 1000) now = .error .responseError := by
      simp [tsRange, hre, hmem]
    rw [ht]
  · intro hre
    unfold detect_anomalies
    have ht : tsRange s metric (now - WINDOW_SIZE * 1000) now = .error .connectionError := by
      simp [tsRange, hre]
    rw [ht]

/-- An unreachable store. -/
def downStore : Store :=
  { reachable := false, tsKeys := [], tsData := fun _ => [], kv := fun _ => none }

/-- Counterexample for C7 as stated: with the store unreachable,
`detect_anomalies` propagates the fault to its caller; it does not return an
absent ("no signal") result. -/
theorem detect_anomalies_unreachable_faults :
    detect_anomalies downStore 0 "ddos:total_rps" = .error () ∧
    ∀ o s', detect_anomalies downStore 0 "ddos:total_rps" ≠ .ok (o, s') := by
  have h : detect_anomalies downStore 0 "ddos:total_rps" = .error () := rfl
  refine ⟨h, ?_⟩
  intro o s' hc
  rw [h] at hc
  exact Except.noConfusion hc

/-- Witness for C7 (amended): a reachable store without the key degrades to
an absent result, and an unreachable store faults. -/
theorem detect_anomalies_degradation_witness :
    detect_anomalies downStore 1 "m" = .error () := by
  exact (detect_anomalies_degradation downStore 1 "m").2 rfl

/-- C8: on every evaluation that reaches the computation stage, the computed
mean and standard deviation are appended to `{metric}:avg` and `{metric}:std`
at the evaluation timestamp, unconditionally; no other series is modified —
in particular the evaluated metric's own window data — and the key-value
space is untouched. -/
theorem detect_anomalies_write_effects (s : Store) (now : ℤ) (metric : String)
    (hre : s.reachable = true) (hmem : metric ∈ s.tsKeys)
    (hlen : MIN_DATA_POINTS ≤ (windowData s now metric).length) :
    ∃ r s', detect_anomalies s now metric = .ok (some r, s') ∧
      s'.tsData (metric ++ ":avg") =
        s.tsData (metric ++ ":avg") ++ [(now, wMean s now metric)] ∧
      s'.tsData (metric ++ ":std") =
        s.tsData (metric ++ ":std") ++ [(now, wStd s now metric)] ∧
      (∀ k, k ≠ metric ++ ":avg" → k ≠ metric ++ ":std" → s'.tsData k = s.tsData k) ∧
      s'.tsData metric = s.tsData metric ∧
      s'.kv = s.kv := by
  refine ⟨_, _, detect_anomalies_eq s now metric hre hmem hlen, ?_, ?_, ?_, ?_, rfl⟩
  · rw [tsAdd_data_ne _ _ _ _ _ (append_avg_ne_std metric)]
    exact tsAdd_data_self _ _ _ _
  · rw [tsAdd_data_self, tsAdd_data_ne _ _ _ _ _ (Ne.symm (append_avg_ne_std metric))]
  · intro k h1 h2
    rw [tsAdd_data_ne _ _ _ _ _ h2, tsAdd_data_ne _ _ _ _ _ h1]
  · rw [tsAdd_data_ne _ _ _ _ _ (ne_append_std metric),
      tsAdd_data_ne _ _ _ _ _ (ne_append_avg metric)]

/-- Witness for C8 at the 30-sample demo store. -/
theorem detect_anomalies_write_effects_witness :
    ∃ r s', detect_anomalies demoStore 30 "m" = .ok (some r, s') ∧
      s'.tsData ("m" ++ ":avg") =
        demoStore.tsData ("m" ++ ":avg") ++ [(30, wMean demoStore 30 "m")] ∧
      s'.kv = demoStore.kv := by
  obtain ⟨r, s', h1, h2, -, -, -, h6⟩ :=
    detect_anomalies_write_effects demoStore 30 "m" rfl (by simp [demoStore])
      demo_window_len
  exact ⟨r, s', h1, h2, h6⟩


/-! ### Key-value helper lemmas -/

theorem kvSet_kv_self (s : Store) (key : String) (v : KVVal) (ttl : ℕ) :
    (kvSet s key v ttl).kv key = some (v, ttl) := by
  simp [kvSet]

theorem kvSet_kv_ne (s : Store) (key : String) (v : KVVal) (ttl : ℕ) (k : String)
    (h : k ≠ key) : (kvSet s key v ttl).kv k = s.kv k := by
  simp [kvSet, h]

theorem kvIncr_kv_ne (s : Store) (key k : String) (h : k ≠ key) :
    (kvIncr s key).kv k = s.kv k := by
  simp [kvIncr, h]

theorem kvExpire_kv_ne (s : Store) (key : String) (ttl : ℕ) (k : String)
    (h : k ≠ key) : (kvExpire s key ttl).kv k = s.kv k := by
  simp [kvExpire, h]

theorem kvIncr_kv_self (s : Store) (key : String) :
    ∃ t, (kvIncr s key).kv key = some (.vnum (kvCount s key + 1), t) := by
  unfold kvIncr kvCount
  simp only [if_pos]
  cases h : s.kv key with
  | none => exact ⟨0, by simp [h]⟩
  | some p =>
    obtain ⟨v, ttl⟩ := p
    cases v with
    | vnum n => exact ⟨ttl, by simp [h]⟩
    | vstr w =>
      by_cases hw : w = ""
      · exact ⟨ttl, by simp [h, hw]⟩
      · exact ⟨ttl, by simp [h, hw]⟩

theorem rate_store_kv (s : Store) (key : String) :
    (kvExpire (kvIncr s key) key RATE_LIMIT_WINDOW).kv key =
      some (.vnum (kvCount s key + 1), RATE_LIMIT_WINDOW) := by
  obtain ⟨t, ht⟩ := kvIncr_kv_self s key
  unfold kvExpire
  simp only [if_pos]
  rw [ht]

theorem rate_store_count (s : Store) (key : String) :
    kvCount (kvExpire (kvIncr s key) key RATE_LIMIT_WINDOW) key =
      kvCount s key + 1 := by
  unfold kvCount
  rw [rate_store_kv s key]
  rfl

theorem check_rate_limit_high (s : Store) (ip : String)
    (h : RATE_LIMIT_MAX_REQUESTS ≤ kvCount s ("ratelimit:" ++ ip)) :
    check_rate_limit s ip = ((true, kvCount s ("ratelimit:" ++ ip)), s) := by
  unfold check_rate_limit
  rw [if_pos h]

theorem check_rate_limit_low (s : Store) (ip : String)
    (h : kvCount s ("ratelimit:" ++ ip) < RATE_LIMIT_MAX_REQUESTS) :
    check_rate_limit s ip =
      ((false, kvCount s ("ratelimit:" ++ ip) + 1),
       kvExpire (kvIncr s ("ratelimit:" ++ ip)) ("ratelimit:" ++ ip) RATE_LIMIT_WINDOW) := by
  unfold check_rate_limit
  rw [if_neg (by omega)]

/-! ### Disequalities between the key namespaces -/

theorem blocked_ne_verified (a b : String) : "blocked:" ++ a ≠ "verified:" ++ b := by
  intro h
  have h2 := congrArg String.data h
  rw [String.data_append, String.data_append] at h2
  have e1 : ("blocked:" : String).data = ['b', 'l', 'o', 'c', 'k', 'e', 'd', ':'] := rfl
  have e2 : ("verified:" : String).data = ['v', 'e', 'r', 'i', 'f', 'i', 'e', 'd', ':'] := rfl
  rw [e1, e2] at h2
  simp at h2

theorem blocked_ne_ratelimit (a b : String) : "blocked:" ++ a ≠ "ratelimit:" ++ b := by
  intro h
  have h2 := congrArg String.data h
  rw [String.data_append, String.data_append] at h2
  have e1 : ("blocked:" : String).data = ['b', 'l', 'o', 'c', 'k', 'e', 'd', ':'] := rfl
  have e2 : ("ratelimit:" : String).data = ['r', 'a', 't', 'e', 'l', 'i', 'm', 'i', 't', ':'] := rfl
  rw [e1, e2] at h2
  simp at h2

theorem verified_ne_ratelimit (a b : String) : "verified:" ++ a ≠ "ratelimit:" ++ b := by
  intro h
  have h2 := congrArg String.data h
  rw [String.data_append, String.data_append] at h2
  have e1 : ("verified:" : String).data = ['v', 'e', 'r', 'i', 'f', 'i', 'e', 'd', ':'] := rfl
  have e2 : ("ratelimit:" : String).data = ['r', 'a', 't', 'e', 'l', 'i', 'm', 'i', 't', ':'] := rfl
  rw [e1, e2] at h2
  simp at h2


/-- C5: the stored rate-limit counter never exceeds
`RATE_LIMIT_MAX_REQUESTS = 1000`. When the current count is at least 1000,
`check_rate_limit` returns limited with the stored count and leaves the store
untouched; otherwise it increments the counter by one (the stored count
becomes exactly count + 1), resets the key's expiry to `RATE_LIMIT_WINDOW`,
and returns not-limited with the post-increment count; and from any count at
most 1000 the stored count stays at most 1000. -/
theorem check_rate_limit_policy (s : Store) (ip : String) :
    (RATE_LIMIT_MAX_REQUESTS ≤ kvCount s ("ratelimit:" ++ ip) →
      check_rate_limit s ip = ((true, kvCount s ("ratelimit:" ++ ip)), s)) ∧
    (kvCount s ("ratelimit:" ++ ip) < RATE_LIMIT_MAX_REQUESTS →
      (check_rate_limit s ip).1 = (false, kvCount s ("ratelimit:" ++ ip) + 1) ∧
      (check_rate_limit s ip).2.kv ("ratelimit:" ++ ip) =
        some (.vnum (kvCount s ("ratelimit:" ++ ip) + 1), RATE_LIMIT_WINDOW) ∧
      kvCount (check_rate_limit s ip).2 ("ratelimit:" ++ ip) =
        kvCount s ("ratelimit:" ++ ip) + 1) ∧
    (kvCount s ("ratelimit:" ++ ip) ≤ RATE_LIMIT_MAX_REQUESTS →
      kvCount (check_rate_limit s ip).2 ("ratelimit:" ++ ip) ≤ RATE_LIMIT_MAX_REQUESTS) := by
  refine ⟨check_rate_limit_high s ip, ?_, ?_⟩
  · intro h
    rw [check_rate_limit_low s ip h]
    exact ⟨rfl, rate_store_kv s ("ratelimit:" ++ ip),
      rate_store_count s ("ratelimit:" ++ ip)⟩
  · intro h
    by_cases hlt : kvCount s ("ratelimit:" ++ ip) < RATE_LIMIT_MAX_REQUESTS
    · rw [check_rate_limit_low s ip hlt]
      rw [rate_store_count s ("ratelimit:" ++ ip)]
      omega
    · rw [check_rate_limit_high s ip (by omega)]
      exact h

/-- A store whose rate-limit counter for `1.2.3.4` sits exactly at the cap. -/
def rlStore : Store :=
  { reachable := true
    tsKeys := []
    tsData := fun _ => []
    kv := fun k => if k = "ratelimit:1.2.3.4" then some (.vnum 1000, 60) else none }

/-- Witness for C5: at a stored count of exactly 1000 the call is limited,
does not increment, and the stored count stays at the cap. -/
theorem check_rate_limit_policy_witness :
    check_rate_limit rlStore "1.2.3.4" = ((true, 1000), rlStore) ∧
    kvCount (check_rate_limit rlStore "1.2.3.4").2 ("ratelimit:" ++ "1.2.3.4") ≤
      RATE_LIMIT_MAX_REQUESTS := by
  have hp := check_rate_limit_policy rlStore "1.2.3.4"
  have hc : kvCount rlStore ("ratelimit:" ++ "1.2.3.4") = 1000 := by decide
  exact ⟨by rw [hp.1 (by rw [hc]; decide), hc], hp.2.2 (by rw [hc]; decide)⟩

/-- C2: a verification request whose client IP has a live `verified` entry
returns verified/cached immediately, with the store unchanged (in particular
no rate-limit counter increment) and no outbound calls (no
threat-intelligence query and no block) — whatever the rate-limit state and
threat oracle would have said. -/
theorem verify_client_cached (s : Store) (ti : String → Option ThreatIntelResult)
    (ip : String) (h : kvTruthy (s.kv ("verified:" ++ ip)) = true) :
    verify_client s ti ip = (⟨true, "cached"⟩, s, ⟨[], [], []⟩) := by
  unfold verify_client
  rw [if_pos h]

/-- A store in which `9.9.9.9` is verified, rate-limited and threat-flagged
at once. -/
def cachedStore : Store :=
  { reachable := true
    tsKeys := []
    tsData := fun _ => []
    kv := fun k =>
      if k = "verified:9.9.9.9" then some (.vstr "cookie", 3600)
      else if k = "ratelimit:9.9.9.9" then some (.vnum 1000, 60)
      else none }

/-- Witness for C2: the cached path wins even though the IP is at the
rate-limit cap and the oracle reports a risk score of 99. -/
theorem verify_client_cached_witness :
    verify_client cachedStore
      (fun _ => some { ip := "9.9.9.9", risk_score := 99, categories := [],
                       is_proxy := false, is_tor := false, is_vpn := false,
                       country_code := "ZZ", asn := 0, asn_name := "" })
      "9.9.9.9" = (⟨true, "cached"⟩, cachedStore, ⟨[], [], []⟩) :=
  verify_client_cached cachedStore _ "9.9.9.9" (by decide)

/-- C3: a verification request that passes the cached and rate-limit checks
and whose threat lookup reports risk_score > 70 issues exactly one block
action, persists a blocked entry with reason `threat_intel` and TTL 3600, and
returns unverified/threat_intel_blocked; at risk_score ≤ 70 no block action
is issued and the blocked registry entry for the IP is untouched. -/
theorem verify_client_threat_policy (s : Store)
    (ti : String → Option ThreatIntelResult) (ip : String) (t : ThreatIntelResult)
    (hv : kvTruthy (s.kv ("verified:" ++ ip)) = false)
    (hc : kvCount s ("ratelimit:" ++ ip) < RATE_LIMIT_MAX_REQUESTS)
    (hti : ti ip = some t) :
    ((70 : ℚ) < t.risk_score →
      ∃ s', verify_client s ti ip =
          (⟨false, "threat_intel_blocked"⟩, s', ⟨[ip], [ip], []⟩) ∧
        s'.kv ("blocked:" ++ ip) = some (.vstr "threat_intel", 3600)) ∧
    (t.risk_score ≤ 70 →
      ∃ res s', verify_client s ti ip = (res, s', ⟨[ip], [], []⟩) ∧
        s'.kv ("blocked:" ++ ip) = s.kv ("blocked:" ++ ip)) := by
  have hrl := check_rate_limit_low s ip hc
  have hblocked_rl : ∀ s₀ : Store,
      (kvExpire (kvIncr s₀ ("ratelimit:" ++ ip)) ("ratelimit:" ++ ip)
        RATE_LIMIT_WINDOW).kv ("blocked:" ++ ip) = s₀.kv ("blocked:" ++ ip) := by
    intro s₀
    rw [kvExpire_kv_ne _ _ _ _ (blocked_ne_ratelimit ip ip),
      kvIncr_kv_ne _ _ _ (blocked_ne_ratelimit ip ip)]
  constructor
  · intro hrisk
    refine ⟨kvSet (check_rate_limit s ip).2 ("blocked:" ++ ip) (.vstr "threat_intel") 3600, ?_, ?_⟩
    · unfold verify_client
      rw [if_neg (by simp [hv]), hti, hrl]
      rw [if_neg (by simp)]
      show (if (70 : ℚ) < t.risk_score then _ else _) = _
      rw [if_pos hrisk]
    · exact kvSet_kv_self _ _ _ _
  · intro hrisk
    have hnot : ¬ ((70 : ℚ) < t.risk_score) := not_lt.mpr hrisk
    have hmain : verify_client s ti ip = verify_graduated s ip := by
      unfold verify_client
      rw [if_neg (by simp [hv]), hti, hrl]
      rw [if_neg (by simp)]
      show (if (70 : ℚ) < t.risk_score then _ else _) = _
      rw [if_neg hnot]
    unfold verify_graduated at *
    by_cases h100 : 100 < (check_rate_limit s ip).1.2
    · refine ⟨_, _, by rw [hmain, if_pos h100], ?_⟩
      rw [hrl, hblocked_rl s]
    · by_cases h50 : 50 < (check_rate_limit s ip).1.2
      · refine ⟨_, _, by rw [hmain, if_neg h100, if_pos h50], ?_⟩
        rw [hrl, hblocked_rl s]
      · refine ⟨_, _, by rw [hmain, if_neg h100, if_neg h50], ?_⟩
        rw [kvSet_kv_ne _ _ _ _ _ (blocked_ne_verified ip ip), hrl, hblocked_rl s]

/-- An otherwise-empty reachable store. -/
def plainStore : Store :=
  { reachable := true, tsKeys := [], tsData := fun _ => [], kv := fun _ => none }

/-- Witness for C3: a risk score of 85 on a clean store yields exactly one
block and a `threat_intel` registry entry. -/
theorem verify_client_threat_policy_witness :
    ∃ s', verify_client plainStore
        (fun _ => some { ip := "8.8.8.8", risk_score := 85, categories := [],
                         is_proxy := false, is_tor := false, is_vpn := false,
                         country_code := "ZZ", asn := 0, asn_name := "" })
        "8.8.8.8" = (⟨false, "threat_intel_blocked"⟩, s', ⟨["8.8.8.8"], ["8.8.8.8"], []⟩) ∧
      s'.kv ("blocked:" ++ "8.8.8.8") = some (.vstr "threat_intel", 3600) :=
  (verify_client_threat_policy plainStore _ "8.8.8.8" _ rfl (by decide) rfl).1 (by norm_num)


/-- C9: a manual mitigation request with action_type `monitor` persists a
`monitored` registry entry for the target with the given reason and TTL,
returns success, and issues no outbound actuator call at all. -/
theorem add_mitigation_monitor (s : Store) (cfBlock cfChallenge : String → Bool)
    (a : MitigationAction) (h : a.action_type = "monitor") :
    add_mitigation s cfBlock cfChallenge a =
      (true, kvSet s ("monitored:" ++ a.target) (.vstr a.reason) a.duration,
       ⟨[], [], []⟩) ∧
    (kvSet s ("monitored:" ++ a.target) (.vstr a.reason) a.duration).kv
        ("monitored:" ++ a.target) = some (.vstr a.reason, a.duration) := by
  constructor
  · unfold add_mitigation
    rw [if_neg (by rw [h]; decide), if_neg (by rw [h]; decide)]
  · exact kvSet_kv_self _ _ _ _

/-- Witness for C9 on a clean store. -/
theorem add_mitigation_monitor_witness :
    add_mitigation plainStore (fun _ => false) (fun _ => false)
      { action_type := "monitor", target := "7.7.7.7", duration := 300,
        reason := "watch" } =
      (true, kvSet plainStore ("monitored:" ++ "7.7.7.7") (.vstr "watch") 300,
       ⟨[], [], []⟩) :=
  (add_mitigation_monitor plainStore (fun _ => false) (fun _ => false)
    { action_type := "monitor", target := "7.7.7.7", duration := 300,
      reason := "watch" } rfl).1

/-! ### Agreement helpers for the blocked-registry noninterference claim -/

theorem strPre_blocked_verified (ip : String) :
    strPre "blocked:" ("verified:" ++ ip) = false := by
  unfold strPre
  rw [String.data_append]
  rfl

theorem strPre_blocked_ratelimit (ip : String) :
    strPre "blocked:" ("ratelimit:" ++ ip) = false := by
  unfold strPre
  rw [String.data_append]
  rfl

theorem rl_store_agree {s₁ s₂ : Store} {P : String → Bool} {key : String}
    (hagree : ∀ k, P k = false → s₁.kv k = s₂.kv k)
    (hkeyc : kvCount s₁ key = kvCount s₂ key) :
    ∀ k, P k = false →
      (kvExpire (kvIncr s₁ key) key RATE_LIMIT_WINDOW).kv k =
        (kvExpire (kvIncr s₂ key) key RATE_LIMIT_WINDOW).kv k := by
  intro k hk
  by_cases hkey : k = key
  · subst hkey
    rw [rate_store_kv, rate_store_kv, hkeyc]
  · rw [kvExpire_kv_ne _ _ _ _ hkey, kvIncr_kv_ne _ _ _ hkey,
      kvExpire_kv_ne _ _ _ _ hkey, kvIncr_kv_ne _ _ _ hkey]
    exact hagree k hk

theorem kvSet_agree {s₁ s₂ : Store} {P : String → Bool}
    (hagree : ∀ k, P k = false → s₁.kv k = s₂.kv k) (key : String) (v : KVVal)
    (ttl : ℕ) :
    ∀ k, P k = false → (kvSet s₁ key v ttl).kv k = (kvSet s₂ key v ttl).kv k := by
  intro k hk
  by_cases hkey : k = key
  · subst hkey
    rw [kvSet_kv_self, kvSet_kv_self]
  · rw [kvSet_kv_ne _ _ _ _ _ hkey, kvSet_kv_ne _ _ _ _ _ hkey]
    exact hagree k hk

theorem check_rate_limit_fst_agree {s₁ s₂ : Store} (ip : String)
    (hcount : kvCount s₁ ("ratelimit:" ++ ip) = kvCount s₂ ("ratelimit:" ++ ip)) :
    (check_rate_limit s₁ ip).1 = (check_rate_limit s₂ ip).1 := by
  unfold check_rate_limit
  rw [hcount]
  by_cases hc : RATE_LIMIT_MAX_REQUESTS ≤ kvCount s₂ ("ratelimit:" ++ ip)
  · rw [if_pos hc, if_pos hc]
  · rw [if_neg hc, if_neg hc]

theorem check_rate_limit_store_agree {s₁ s₂ : Store} (ip : String)
    (hagree : ∀ k, strPre "blocked:" k = false → s₁.kv k = s₂.kv k)
    (hcount : kvCount s₁ ("ratelimit:" ++ ip) = kvCount s₂ ("ratelimit:" ++ ip)) :
    ∀ k, strPre "blocked:" k = false →
      (check_rate_limit s₁ ip).2.kv k = (check_rate_limit s₂ ip).2.kv k := by
  unfold check_rate_limit
  rw [hcount]
  by_cases hc : RATE_LIMIT_MAX_REQUESTS ≤ kvCount s₂ ("ratelimit:" ++ ip)
  · rw [if_pos hc, if_pos hc]
    exact hagree
  · rw [if_neg hc, if_neg hc]
    exact fun k hk => rl_store_agree hagree hcount k hk

theorem verify_graduated_agree {s₁ s₂ : Store} (ip : String)
    (hagree : ∀ k, strPre "blocked:" k = false → s₁.kv k = s₂.kv k)
    (hcount : kvCount s₁ ("ratelimit:" ++ ip) = kvCount s₂ ("ratelimit:" ++ ip)) :
    (verify_graduated s₁ ip).1 = (verify_graduated s₂ ip).1 ∧
    (verify_graduated s₁ ip).2.2 = (verify_graduated s₂ ip).2.2 ∧
    ∀ k, strPre "blocked:" k = false →
      (verify_graduated s₁ ip).2.1.kv k = (verify_graduated s₂ ip).2.1.kv k := by
  have hfst := check_rate_limit_fst_agree ip hcount
  have hcnt2 : (check_rate_limit s₁ ip).1.2 = (check_rate_limit s₂ ip).1.2 := by
    rw [hfst]
  have hst := check_rate_limit_store_agree ip hagree hcount
  unfold verify_graduated
  rw [hcnt2]
  by_cases h100 : 100 < (check_rate_limit s₂ ip).1.2
  · rw [if_pos h100, if_pos h100]
    exact ⟨rfl, rfl, hst⟩
  · rw [if_neg h100, if_neg h100]
    by_cases h50 : 50 < (check_rate_limit s₂ ip).1.2
    · rw [if_pos h50, if_pos h50]
      exact ⟨rfl, rfl, hst⟩
    · rw [if_neg h50, if_neg h50]
      exact ⟨rfl, rfl, kvSet_agree hst _ _ _⟩

/-- C10: the verification decision never reads the blocked registry — on any
two stores that agree outside `blocked:*`-keyed entries, `verify_client`
returns the same result, issues the same outbound calls, and leaves the
non-blocked key space in the same state. Consequently an IP holding a live
blocked entry but no live verified entry goes through the ordinary decision
tree, and with a low request count and no high threat score it is immediately
re-marked verified and returned verified/cookie. -/
theorem verify_client_ignores_blocked :
    (∀ (s₁ s₂ : Store) (ti : String → Option ThreatIntelResult) (ip : String),
      (∀ k, strPre "blocked:" k = false → s₁.kv k = s₂.kv k) →
      (verify_client s₁ ti ip).1 = (verify_client s₂ ti ip).1 ∧
      (verify_client s₁ ti ip).2.2 = (verify_client s₂ ti ip).2.2 ∧
      (∀ k, strPre "blocked:" k = false →
        (verify_client s₁ ti ip).2.1.kv k = (verify_client s₂ ti ip).2.1.kv k)) ∧
    (∀ (s : Store) (ti : String → Option ThreatIntelResult) (ip : String)
      (v : KVVal) (ttl : ℕ),
      s.kv ("blocked:" ++ ip) = some (v, ttl) →
      kvTruthy (s.kv ("verified:" ++ ip)) = false →
      kvCount s ("ratelimit:" ++ ip) ≤ 49 →
      (∀ t, ti ip = some t → t.risk_score ≤ 70) →
      ∃ s', verify_client s ti ip = (⟨true, "cookie"⟩, s', ⟨[ip], [], []⟩) ∧
        s'.kv ("verified:" ++ ip) = some (.vstr "cookie", 3600)) := by
  constructor
  · intro s₁ s₂ ti ip hagree
    have hv : s₁.kv ("verified:" ++ ip) = s₂.kv ("verified:" ++ ip) :=
      hagree _ (strPre_blocked_verified ip)
    have hr : s₁.kv ("ratelimit:" ++ ip) = s₂.kv ("ratelimit:" ++ ip) :=
      hagree _ (strPre_blocked_ratelimit ip)
    have hcount : kvCount s₁ ("ratelimit:" ++ ip) = kvCount s₂ ("ratelimit:" ++ ip) := by
      unfold kvCount
      rw [hr]
    have hfst := check_rate_limit_fst_agree ip hcount
    have hst := check_rate_limit_store_agree ip hagree hcount
    by_cases htv : kvTruthy (s₂.kv ("verified:" ++ ip)) = true
    · have e₁ : verify_client s₁ ti ip = (⟨true, "cached"⟩, s₁, ⟨[], [], []⟩) := by
        unfold verify_client
        rw [hv, if_pos htv]
      have e₂ : verify_client s₂ ti ip = (⟨true, "cached"⟩, s₂, ⟨[], [], []⟩) := by
        unfold verify_client
        rw [if_pos htv]
      rw [e₁, e₂]
      exact ⟨rfl, rfl, hagree⟩
    · have htv₁ : ¬ kvTruthy (s₁.kv ("verified:" ++ ip)) = true := by
        rw [hv]; exact htv
      by_cases hl : (check_rate_limit s₂ ip).1.1 = true
      · have hl₁ : (check_rate_limit s₁ ip).1.1 = true := by rw [hfst]; exact hl
        have e₁ : verify_client s₁ ti ip =
            (⟨false, "rate_limited"⟩, (check_rate_limit s₁ ip).2, ⟨[], [], []⟩) := by
          unfold verify_client
          rw [if_neg htv₁, if_pos hl₁]
        have e₂ : verify_client s₂ ti ip =
            (⟨false, "rate_limited"⟩, (check_rate_limit s₂ ip).2, ⟨[], [], []⟩) := by
          unfold verify_client
          rw [if_neg htv, if_pos hl]
        rw [e₁, e₂]
        exact ⟨rfl, rfl, hst⟩
      · have hl₁ : ¬ (check_rate_limit s₁ ip).1.1 = true := by rw [hfst]; exact hl
        have epeel : ∀ s₀ : Store, ¬ kvTruthy (s₀.kv ("verified:" ++ ip)) = true →
            ¬ (check_rate_limit s₀ ip).1.1 = true →
            verify_client s₀ ti ip =
              (match ti ip with
              | some t =>
                if (70 : ℚ) < t.risk_score then
                  (⟨false, "threat_intel_blocked"⟩,
                   kvSet (check_rate_limit s₀ ip).2 ("blocked:" ++ ip)
                     (.vstr "threat_intel") 3600,
                   ⟨[ip], [ip], []⟩)
                else verify_graduated s₀ ip
              | none => verify_graduated s₀ ip) := by
          intro s₀ h1 h2
          unfold verify_client
          rw [if_neg h1, if_neg h2]
        cases hti : ti ip with
        | none =>
          have e₁ : verify_client s₁ ti ip = verify_graduated s₁ ip := by
            rw [epeel s₁ htv₁ hl₁, hti]
          have e₂ : verify_client s₂ ti ip = verify_graduated s₂ ip := by
            rw [epeel s₂ htv hl, hti]
          rw [e₁, e₂]
          exact verify_graduated_agree ip hagree hcount
        | some t =>
          by_cases hrisk : (70 : ℚ) < t.risk_score
          · have e₁ : verify_client s₁ ti ip =
                (⟨false, "threat_intel_blocked"⟩,
                 kvSet (check_rate_limit s₁ ip).2 ("blocked:" ++ ip)
                   (.vstr "threat_intel") 3600, ⟨[ip], [ip], []⟩) := by
              rw [epeel s₁ htv₁ hl₁, hti]
              show (if (70 : ℚ) < t.risk_score then _ else _) = _
              rw [if_pos hrisk]
            have e₂ : verify_client s₂ ti ip =
                (⟨false, "threat_intel_blocked"⟩,
                 kvSet (check_rate_limit s₂ ip).2 ("blocked:" ++ ip)
                   (.vstr "threat_intel") 3600, ⟨[ip], [ip], []⟩) := by
              rw [epeel s₂ htv hl, hti]
              show (if (70 : ℚ) < t.risk_score then _ else _) = _
              rw [if_pos hrisk]
            rw [e₁, e₂]
            exact ⟨rfl, rfl, kvSet_agree hst _ _ _⟩
          · have e₁ : verify_client s₁ ti ip = verify_graduated s₁ ip := by
              rw [epeel s₁ htv₁ hl₁, hti]
              show (if (70 : ℚ) < t.risk_score then _ else _) = _
              rw [if_neg hrisk]
            have e₂ : verify_client s₂ ti ip = verify_graduated s₂ ip := by
              rw [epeel s₂ htv hl, hti]
              show (if (70 : ℚ) < t.risk_score then _ else _) = _
              rw [if_neg hrisk]
            rw [e₁, e₂]
            exact verify_graduated_agree ip hagree hcount
  · intro s ti ip v ttl hblocked hver hcnt hti
    have hc : kvCount s ("ratelimit:" ++ ip) < RATE_LIMIT_MAX_REQUESTS := by
      have h1000 : RATE_LIMIT_MAX_REQUESTS = 1000 := rfl
      omega
    have hrl := check_rate_limit_low s ip hc
    have hgrad : verify_client s ti ip = verify_graduated s ip := by
      unfold verify_client
      rw [if_neg (by simp [hver]), hrl]
      rw [if_neg (by simp)]
      cases hti2 : ti ip with
      | none => rfl
      | some t =>
        show (if (70 : ℚ) < t.risk_score then _ else _) = _
        rw [if_neg (not_lt.mpr (hti t hti2))]
    refine ⟨kvSet (check_rate_limit s ip).2 ("verified:" ++ ip) (.vstr "cookie") 3600,
      ?_, kvSet_kv_self _ _ _ _⟩
    rw [hgrad]
    unfold verify_graduated
    rw [hrl]
    rw [if_neg (by show ¬ (100 < kvCount s ("ratelimit:" ++ ip) + 1); omega),
      if_neg (by show ¬ (50 < kvCount s ("ratelimit:" ++ ip) + 1); omega)]

/-- A store whose only live entry is a blocked-registry entry for `5.5.5.5`. -/
def blockedStore : Store :=
  { reachable := true
    tsKeys := []
    tsData := fun _ => []
    kv := fun k =>
      if k = "blocked:5.5.5.5" then some (.vstr "auto_anomaly", 3600) else none }

/-- Witness for C10: a blocked-but-not-verified IP on an otherwise clean
store decides exactly as on the store without the blocked entry, and comes
out verified/cookie. -/
theorem verify_client_ignores_blocked_witness :
    (verify_client blockedStore (fun _ => none) "5.5.5.5").1 =
      (verify_client plainStore (fun _ => none) "5.5.5.5").1 ∧
    ∃ s', verify_client blockedStore (fun _ => none) "5.5.5.5" =
        (⟨true, "cookie"⟩, s', ⟨["5.5.5.5"], [], []⟩) ∧
      s'.kv ("verified:" ++ "5.5.5.5") = some (.vstr "cookie", 3600) := by
  have h := verify_client_ignores_blocked
  refine ⟨(h.1 blockedStore plainStore (fun _ => none) "5.5.5.5" ?_).1,
    h.2 blockedStore (fun _ => none) "5.5.5.5" (.vstr "auto_anomaly") 3600 rfl rfl
      (by decide) ?_⟩
  · intro k hk
    show (if k = "blocked:5.5.5.5" then some (KVVal.vstr "auto_anomaly", 3600) else none) =
      none
    rw [if_neg ?_]
    intro hke
    subst hke
    exact absurd hk (by decide)
  · intro t ht
    exact Option.noConfusion ht


/-! ### Sweep helper lemmas -/

theorem listPre_iff (p : List Char) :
    ∀ l, listPre p l = true ↔ ∃ t, l = p ++ t := by
  induction p with
  | nil =>
    intro l
    simp [listPre]
  | cons c cs ih =>
    intro l
    cases l with
    | nil => simp [listPre]
    | cons a as =>
      simp only [listPre, Bool.and_eq_true, beq_iff_eq]
      constructor
      · rintro ⟨rfl, h2⟩
        obtain ⟨t, rfl⟩ := (ih as).mp h2
        exact ⟨t, rfl⟩
      · rintro ⟨t, h⟩
        injection h with h1 h2
        exact ⟨h1.symm, (ih as).mpr ⟨t, h2⟩⟩

theorem strPre_path_not_ip (k : String) (h : strPre "ddos:path:" k = true) :
    strPre "ddos:ip:" k = false := by
  unfold strPre at *
  obtain ⟨t, ht⟩ := (listPre_iff _ _).mp h
  rw [ht]
  rfl

theorem scanKeys_strPre {s : Store} {pre k : String} (h : k ∈ scanKeys s pre) :
    strPre pre k = true := by
  unfold scanKeys at h
  have h2 := List.of_mem_filter h
  simp only [Bool.and_eq_true] at h2
  exact h2.1.1

theorem sweepLoop_spec (f : String → String) (now : ℤ) :
    ∀ (keys : List String) (s : Store), s.reachable = true →
      ∃ as ps s', sweepLoop f now keys s = .ok (as, ps, s') ∧
        s'.kv = s.kv ∧ s'.reachable = true ∧
        ps = as.map (fun r => (f r.metric, r.value)) ∧
        ∀ r ∈ as, r.is_anomaly = true ∧ r.metric ∈ keys := by
  intro keys
  induction keys with
  | nil =>
    intro s hre
    exact ⟨[], [], s, rfl, rfl, hre, rfl, by simp⟩
  | cons k ks ih =>
    intro s hre
    obtain ⟨o, s₁, hdet⟩ := detect_anomalies_ok s now k hre
    obtain ⟨hkv₁, hre₁, hmet⟩ := detect_anomalies_frame hdet
    obtain ⟨as, ps, s₂, hloop, hkv₂, hre₂, hps, hmem⟩ :=
      ih s₁ (by rw [hre₁]; exact hre)
    cases o with
    | none =>
      refine ⟨as, ps, s₂, ?_, by rw [hkv₂, hkv₁], hre₂, hps, ?_⟩
      · unfold sweepLoop
        simp only [hdet, hloop]
      · intro r hr
        exact ⟨(hmem r hr).1, List.mem_cons_of_mem _ (hmem r hr).2⟩
    | some r0 =>
      have hm0 : r0.metric = k := hmet r0 rfl
      by_cases hr0 : r0.is_anomaly = true
      · refine ⟨r0 :: as, (f k, r0.value) :: ps, s₂, ?_,
          by rw [hkv₂, hkv₁], hre₂, ?_, ?_⟩
        · unfold sweepLoop
          simp only [hdet, hloop, hr0, if_true]
        · rw [List.map_cons, hm0, ← hps]
        · intro r hr
          rcases List.mem_cons.mp hr with rfl | hr
          · exact ⟨hr0, by rw [hm0]; exact List.mem_cons_self k ks⟩
          · exact ⟨(hmem r hr).1, List.mem_cons_of_mem _ (hmem r hr).2⟩
      · refine ⟨as, ps, s₂, ?_, by rw [hkv₂, hkv₁], hre₂, hps, ?_⟩
        · unfold sweepLoop
          simp only [hdet, hloop, hr0, if_false, Bool.false_eq_true]
        · intro r hr
          exact ⟨(hmem r hr).1, List.mem_cons_of_mem _ (hmem r hr).2⟩

theorem foldl_block_kv (l : List (String × ℝ)) :
    ∀ (s : Store) (k : String),
      (l.foldl (fun st p => kvSet st ("blocked:" ++ p.1) (.vstr "auto_anomaly") 3600)
          s).kv k =
        if k ∈ l.map (fun p => "blocked:" ++ p.1) then
          some (.vstr "auto_anomaly", 3600)
        else s.kv k := by
  induction l with
  | nil =>
    intro s k
    simp
  | cons p t ih =>
    intro s k
    rw [List.foldl_cons, ih]
    by_cases hmem : k ∈ t.map (fun p => "blocked:" ++ p.1)
    · rw [if_pos hmem, if_pos (by simp only [List.map_cons, List.mem_cons]; exact Or.inr hmem)]
    · rw [if_neg hmem]
      by_cases hk : k = "blocked:" ++ p.1
      · subst hk
        rw [kvSet_kv_self, if_pos (by simp)]
      · rw [kvSet_kv_ne _ _ _ _ _ hk,
          if_neg (by simp only [List.map_cons, List.mem_cons]; rintro (h | h); exacts [hk h, hmem h])]


/-- C4: in the anomaly sweep, among anomalous IP-scoped results exactly those
whose observed value exceeds 100 trigger an auto-block — a Cloudflare block
call plus a blocked registry entry with reason `auto_anomaly` — while
anomalous IP results observing 100 or less, and all path-scoped or global
anomalies, trigger no block (the blocked key space is otherwise untouched);
every anomalous result, blocked or not, appears in the returned list, and the
sweep issues no challenge or threat-intelligence calls. -/
theorem get_anomalies_autoblock (s : Store) (now : ℤ) (hre : s.reachable = true) :
    ∃ res s' eff, get_anomalies s now = .ok (res, s', eff) ∧
      (∀ r ∈ res, r.is_anomaly = true) ∧
      (∀ ip, ip ∈ eff.cfBlocks ↔
        ∃ r ∈ res, strPre "ddos:ip:" r.metric = true ∧ extractIp r.metric = ip ∧
          (100 : ℝ) < r.value) ∧
      (∀ ip ∈ eff.cfBlocks,
        s'.kv ("blocked:" ++ ip) = some (.vstr "auto_anomaly", 3600)) ∧
      (∀ k, (∀ ip ∈ eff.cfBlocks, k ≠ "blocked:" ++ ip) → s'.kv k = s.kv k) ∧
      eff.tiQueries = [] ∧ eff.cfChallenges = [] := by
  obtain ⟨ga, gp, s3, hg, hkv3, hre3, hgp, hgm⟩ :=
    sweepLoop_spec (fun k => k) now
      ["ddos:total_rps", "ddos:response_time", "ddos:error_rate"] s hre
  obtain ⟨pa, pp, s4, hp, hkv4, hre4, hpp, hpm⟩ :=
    sweepLoop_spec (fun k => k) now (scanKeys s3 "ddos:path:") s3 hre3
  obtain ⟨ia, tips, s5, hi, hkv5, hre5, hip, him⟩ :=
    sweepLoop_spec extractIp now (scanKeys s4 "ddos:ip:") s4 hre4
  have hga : get_anomalies s now =
      .ok (ga ++ pa ++ ia,
           (tips.filter fun p => decide ((100 : ℝ) < p.2)).foldl
             (fun st p => kvSet st ("blocked:" ++ p.1) (.vstr "auto_anomaly") 3600) s5,
           ⟨[], (tips.filter fun p => decide ((100 : ℝ) < p.2)).map Prod.fst, []⟩) := by
    unfold get_anomalies
    simp only [hg, hp, hi]
  refine ⟨_, _, _, hga, ?_, ?_, ?_, ?_, rfl, rfl⟩
  · intro r hr
    rcases List.mem_append.mp hr with hr' | hr'
    · rcases List.mem_append.mp hr' with hr'' | hr''
      · exact (hgm r hr'').1
      · exact (hpm r hr'').1
    · exact (him r hr').1
  · intro ip
    constructor
    · intro hmem
      obtain ⟨p, hpf, rfl⟩ := List.mem_map.mp hmem
      obtain ⟨hpt, hdec⟩ := List.mem_filter.mp hpf
      have h100 : (100 : ℝ) < p.2 := of_decide_eq_true hdec
      rw [hip] at hpt
      obtain ⟨r, hr, rfl⟩ := List.mem_map.mp hpt
      exact ⟨r, List.mem_append.mpr (Or.inr hr),
        scanKeys_strPre (him r hr).2, rfl, h100⟩
    · rintro ⟨r, hr, hpre, hext, hval⟩
      have hria : r ∈ ia := by
        rcases List.mem_append.mp hr with hr' | hr'
        · rcases List.mem_append.mp hr' with hg' | hp'
          · exfalso
            have hm3 := (hgm r hg').2
            simp only [List.mem_cons, List.not_mem_nil, or_false] at hm3
            rcases hm3 with h | h | h <;> rw [h] at hpre <;>
              exact absurd hpre (by decide)
          · exfalso
            have hf := strPre_path_not_ip r.metric (scanKeys_strPre (hpm r hp').2)
            rw [hf] at hpre
            exact Bool.noConfusion hpre
        · exact hr'
      have htmem : (extractIp r.metric, r.value) ∈ tips := by
        rw [hip]
        exact List.mem_map_of_mem _ hria
      apply List.mem_map.mpr
      exact ⟨(extractIp r.metric, r.value),
        List.mem_filter.mpr ⟨htmem, decide_eq_true hval⟩, hext⟩
  · intro ip hmem
    obtain ⟨p, hpf, rfl⟩ := List.mem_map.mp hmem
    rw [foldl_block_kv, if_pos (List.mem_map_of_mem _ hpf)]
  · intro k hk
    have hnot : k ∉ (tips.filter fun p => decide ((100 : ℝ) < p.2)).map
        (fun p => "blocked:" ++ p.1) := by
      intro hmem
      obtain ⟨p, hpf, hkeq⟩ := List.mem_map.mp hmem
      exact hk p.1 (List.mem_map_of_mem Prod.fst hpf) hkeq.symm
    rw [foldl_block_kv, if_neg hnot, hkv5, hkv4, hkv3]

/-- Witness for C4: the sweep on a clean reachable store runs to completion
with the stated blocking correspondence. -/
theorem get_anomalies_autoblock_witness :
    ∃ res s' eff, get_anomalies plainStore 0 = .ok (res, s', eff) ∧
      (∀ r ∈ res, r.is_anomaly = true) ∧
      eff.tiQueries = [] ∧ eff.cfChallenges = [] := by
  obtain ⟨res, s', eff, h1, h2, h3, h4, h5, h6, h7⟩ :=
    get_anomalies_autoblock plainStore 0 rfl
  exact ⟨res, s', eff, h1, h2, h6, h7⟩

end DDoS
